import Mathlib

/-!
Verification development for the CometMarquee continuous-loop marquee engine
(src/index.js).  The engine is embedded shallowly: sizes, translations and
timestamps are rationals, DOM structure is reduced to the measured extents the
code reads from it, and every function below mirrors one method of the class
CometMarqueeInstance (or CometMarquee).  The instance registry
window.__allCometMarqueeInstances is a list, and custom events dispatched on
the container are collected into explicit event lists.
-/

namespace CometMarquee

/-- JS Math.ceil on a rational value (the source computes Math.ceil of
size ratios when choosing repeat counts). -/
def jsCeil (q : ℚ) : ℚ := (⌈q⌉ : ℚ)

/-- JS Math.ceil returned as an integer, used where the result feeds a loop
bound that runs an integral number of iterations. -/
def jsCeilInt (q : ℚ) : ℤ := ⌈q⌉

/-- JS Math.round on a rational value (the ResizeObserver callback rounds
entry.contentRect sizes).  Math.round rounds half-up, which is floor of
q + 1/2. -/
def jsRound (q : ℚ) : ℚ := (⌊q + 1/2⌋ : ℚ)

/-- Number of iterations of a JS loop "for (let r = 0; r < q; r++)" for a
possibly fractional bound q. -/
def jsLoopCount (q : ℚ) : ℕ := (⌈q⌉).toNat

/-- The initialShift option: false, true (shift by container size), or an
explicit pixel value. -/
inductive InitialShift
  | off
  | on
  | px (v : ℚ)
deriving DecidableEq

/-- The shift computed in setupContent from options.initialShift:
container size when initialShift === true, the configured number when it is a
number, 0 otherwise. -/
def shiftValue : InitialShift → ℚ → ℚ
  | .on, containerSize => containerSize
  | .px v, _ => v
  | .off, _ => 0

/-- Result of CometMarqueeInstance.calculateDimensions: the fields the method
stores on the instance. -/
structure Dimensions where
  containerWidth : ℚ
  containerHeight : ℚ
  containerSize : ℚ
  contentSize : ℚ
  shouldAnimate : Bool
  forceAnimationEnabled : Bool
deriving DecidableEq

/-- CometMarqueeInstance.getTotalSize: sum of the original items' extents
along the scroll axis plus gap * (itemCount - 1); 0 when there are no items.
The per-item extents (getBoundingClientRect width or height, axis already
chosen) are the inputs. -/
def getTotalSize (itemSizes : List ℚ) (gap : ℚ) : ℚ :=
  if itemSizes.length ≠ 0 then itemSizes.sum + gap * ((itemSizes.length : ℚ) - 1) else 0

/-- CometMarqueeInstance.calculateDimensions.  rectWidth and rectHeight are
the container's bounding rect; containerSize picks the axis.  contentSize is
getTotalSize of the original items.  shouldAnimate is false when contentSize
is not positive, otherwise contentSize > containerSize + 1; when the
forceAnimation option is set, a natural false verdict with positive
contentSize is overridden to true and forceAnimationEnabled records the
override. -/
def calculateDimensions (rectWidth rectHeight : ℚ) (itemSizes : List ℚ) (gap : ℚ)
    (isVertical forceAnimation : Bool) : Dimensions :=
  let containerSize := if isVertical then rectHeight else rectWidth
  let contentSize := getTotalSize itemSizes gap
  let naturalShould : Bool := if contentSize ≤ 0 then false
    else if containerSize + 1 < contentSize then true else false
  let forced : Bool := forceAnimation && !naturalShould && (if 0 < contentSize then true else false)
  { containerWidth := rectWidth
    containerHeight := rectHeight
    containerSize := containerSize
    contentSize := contentSize
    shouldAnimate := naturalShould || forced
    forceAnimationEnabled := forced }

/-- CometMarqueeInstance.calculateForceAnimationClones: number of clones for
forced animation.  viewportSize is window.innerHeight in vertical mode and
window.innerWidth otherwise; singleSetSize is this.contentWidth.  Sets are
capped at 20 and clones at 100. -/
def calculateForceAnimationClones (forceAnimationEnabled : Bool) (itemCount : ℕ)
    (viewportSize forceAnimationWidth singleSetSize : ℚ) : ℕ :=
  if !forceAnimationEnabled || itemCount = 0 then 0
  else
    let targetSize := viewportSize * forceAnimationWidth
    let maxSets : ℤ := 20
    let setsNeeded : ℤ := min (jsCeilInt (targetSize / singleSetSize)) maxSets
    let clonesNeeded : ℤ := max 0 ((setsNeeded - 1) * (itemCount : ℤ))
    let maxClones : ℤ := 100
    (min clonesNeeded maxClones).toNat

/-- Instance fields read by CometMarqueeInstance.setupContent.  Clones are
assumed to measure exactly like the originals they were cloned from, so item
extents stand for both.  prevLoopWidth and prevPrependWidth are the values of
this.loopWidth and this.prependWidth before the call; the early return for
non-animating content leaves them untouched. -/
structure SetupInput where
  shouldAnimate : Bool
  forceAnimationEnabled : Bool
  itemSizes : List ℚ
  gap : ℚ
  repeatCountOpt : ℚ
  reverse : Bool
  initialShift : InitialShift
  forceAnimationWidth : ℚ
  isVertical : Bool
  containerWidth : ℚ
  containerSize : ℚ
  contentWidth : ℚ
  innerWidth : ℚ
  innerHeight : ℚ
  prevLoopWidth : ℚ
  prevPrependWidth : ℚ
deriving DecidableEq

/-- Result of CometMarqueeInstance.setupContent.  totalSize is the authored
extent written to the strip (none models the "auto" reset of the
non-animating branch); appliedTransform is the translate3d offset written to
the strip. -/
structure SetupResult where
  contentSetup : Bool
  repeatCount : ℚ
  appendedSizes : List ℚ
  prependedSizes : List ℚ
  prependWidth : ℚ
  loopWidth : ℚ
  totalSize : Option ℚ
  currentTranslate : ℚ
  appliedTransform : ℚ
deriving DecidableEq

/-- CometMarqueeInstance.setupContent.  When the instance should not animate
it clears clones, resets the transform and the authored extent and returns.
Otherwise it appends repeatCount full copies of the items (forced mode: the
capped forced clone count), prepends extra sets for reverse scrolling, sets
the strip's authored extent to the exact sum of all attached extents plus
gaps, stores loopWidth = contentWidth + gap and prependWidth, and applies the
initial translation (-shift forward, -prependWidth - loopSize + shift
reverse). -/
def setupContent (inp : SetupInput) : SetupResult :=
  if inp.shouldAnimate = false then
    { contentSetup := false
      repeatCount := 0
      appendedSizes := []
      prependedSizes := []
      prependWidth := inp.prevPrependWidth
      loopWidth := inp.prevLoopWidth
      totalSize := none
      currentTranslate := 0
      appliedTransform := 0 }
  else
    let n := inp.itemSizes.length
    let repeatAppend : ℚ × List ℚ :=
      if inp.forceAnimationEnabled then
        let viewportSize := if inp.isVertical then inp.innerHeight else inp.innerWidth
        let forceClonesCount :=
          calculateForceAnimationClones true n viewportSize inp.forceAnimationWidth inp.contentWidth
        (jsCeil ((forceClonesCount : ℚ) / (n : ℚ)),
         (List.range forceClonesCount).map (fun i => inp.itemSizes.getD (i % n) 0))
      else
        let referenceWidth := max inp.containerWidth inp.innerWidth
        let repeatCount :=
          max inp.repeatCountOpt (jsCeil ((referenceWidth * inp.repeatCountOpt) / inp.contentWidth))
        (repeatCount, (List.replicate (jsLoopCount repeatCount) inp.itemSizes).flatten)
    let prependedSizes : List ℚ :=
      if inp.reverse then
        let referenceWidth := max inp.containerWidth inp.innerWidth
        let prependSets : ℤ := max 2 (jsCeilInt (referenceWidth / inp.contentWidth) + 1)
        (List.replicate prependSets.toNat inp.itemSizes).flatten
      else []
    let allSizes := prependedSizes ++ inp.itemSizes ++ repeatAppend.2
    let totalSizeWithClones := allSizes.sum + inp.gap * ((allSizes.length : ℚ) - 1)
    let prependWidth : ℚ :=
      if 0 < prependedSizes.length then
        prependedSizes.sum + inp.gap * (prependedSizes.length : ℚ)
      else 0
    let shift := shiftValue inp.initialShift inp.containerSize
    let loopSize := inp.contentWidth + inp.gap
    let currentTranslate :=
      if inp.reverse then -prependWidth - loopSize + shift else -shift
    { contentSetup := true
      repeatCount := repeatAppend.1
      appendedSizes := repeatAppend.2
      prependedSizes := prependedSizes
      prependWidth := prependWidth
      loopWidth := loopSize
      totalSize := some totalSizeWithClones
      currentTranslate := currentTranslate
      appliedTransform := currentTranslate }

/-- Direction carried by the animation-cycle event. -/
inductive Direction
  | forward
  | reverse
deriving DecidableEq

/-- Events dispatched by the animation loop. -/
inductive AnimEvent
  | cycle (dir : Direction)
deriving DecidableEq

/-- The animation-relevant instance fields read and written by
CometMarqueeInstance.animate.  appliedTransform is the translate3d offset
currently written to the strip's style. -/
structure AnimState where
  isAnimating : Bool
  isPaused : Bool
  reverse : Bool
  speed : ℚ
  gap : ℚ
  contentWidth : ℚ
  loopWidth : ℚ
  prependWidth : ℚ
  currentTranslate : ℚ
  appliedTransform : ℚ
  lastTime : ℚ
deriving DecidableEq

/-- The loop size used by animate: this.loopWidth with fallback to
contentWidth + gap when loopWidth is falsy (0 models the falsy case). -/
def effLoop (s : AnimState) : ℚ :=
  if s.loopWidth = 0 then s.contentWidth + s.gap else s.loopWidth

/-- One invocation of CometMarqueeInstance.animate at frame time currentTime
(milliseconds).  Returns the updated instance fields and the events
dispatched during the frame.  When not animating nothing happens; when paused
only lastTime advances; otherwise the translation moves by speed * dt along
the configured direction and wraps by exactly one loop period, dispatching
one animation-cycle event per wrap. -/
def animate (s : AnimState) (currentTime : ℚ) : AnimState × List AnimEvent :=
  if s.isAnimating = false then (s, [])
  else
    let dt := (currentTime - s.lastTime) / 1000
    let loopSize := effLoop s
    if s.isPaused then ({ s with lastTime := currentTime }, [])
    else if s.reverse then
      let t := s.currentTranslate + s.speed * dt
      let wrapPoint := -s.prependWidth
      if wrapPoint ≤ t then
        ({ s with lastTime := currentTime,
                  currentTranslate := t - loopSize, appliedTransform := t - loopSize },
         [AnimEvent.cycle Direction.reverse])
      else
        ({ s with lastTime := currentTime, currentTranslate := t, appliedTransform := t }, [])
    else
      let t := s.currentTranslate - s.speed * dt
      if t ≤ -loopSize then
        ({ s with lastTime := currentTime,
                  currentTranslate := t + loopSize, appliedTransform := t + loopSize },
         [AnimEvent.cycle Direction.forward])
      else
        ({ s with lastTime := currentTime, currentTranslate := t, appliedTransform := t }, [])

/-- Running the animation loop over a list of frame times. -/
def runFrames (s : AnimState) (times : List ℚ) : AnimState :=
  times.foldl (fun st t => (animate st t).1) s

/-- Per-frame bound used for the wrap invariant: starting from reference time
last, each successive frame time advances by a non-negative amount whose
distance speed * dt does not exceed the loop period. -/
def stepsBounded (speed L : ℚ) : ℚ → List ℚ → Prop
  | _, [] => True
  | last, t :: ts => 0 ≤ t - last ∧ speed * ((t - last) / 1000) ≤ L ∧ stepsBounded speed L t ts

/-- List map that passes the element's position to the function, mirroring the
indexed forEach walks over the instance registry. -/
def mapIdxFrom (f : ℕ → α → β) : ℕ → List α → List β
  | _, [] => []
  | i, a :: as => f i a :: mapIdxFrom f (i + 1) as

/-- Controller-level projection of one CometMarqueeInstance: its measurement
environment (bounding rect, item extents, axis and force option), the fields
calculateDimensions stores, and the control flags driven by pause, resume,
stop and startAnimation.  The clone and transform state rebuilt by
setupContent is summarised by the contentSetup flag; its layout output is
modelled separately by setupContent above. -/
structure Inst where
  rectWidth : ℚ
  rectHeight : ℚ
  itemSizes : List ℚ
  gap : ℚ
  isVertical : Bool
  forceAnimation : Bool
  syncPause : Bool
  containerWidth : ℚ
  containerHeight : ℚ
  containerSize : ℚ
  contentWidth : ℚ
  contentSize : ℚ
  shouldAnimate : Bool
  forceAnimationEnabled : Bool
  isPaused : Bool
  isAnimating : Bool
  contentSetup : Bool
  lastTime : ℚ
deriving DecidableEq

/-- Effect of inst.calculateDimensions() on the instance fields: re-measures
the instance's own environment and stores the results. -/
def measureInst (i : Inst) : Inst :=
  let d := calculateDimensions i.rectWidth i.rectHeight i.itemSizes i.gap i.isVertical i.forceAnimation
  { i with
    containerWidth := d.containerWidth
    containerHeight := d.containerHeight
    containerSize := d.containerSize
    contentWidth := d.contentSize
    contentSize := d.contentSize
    shouldAnimate := d.shouldAnimate
    forceAnimationEnabled := d.forceAnimationEnabled }

/-- Events dispatched by the pause/resume controller, tagged with the index of
the dispatching instance in the registry. -/
inductive CtrlEvent
  | animationPaused (idx : ℕ)
  | animationResumed (idx : ℕ)
  | animationStarted (idx : ℕ)
  | animationStopped (idx : ℕ)
deriving DecidableEq

/-- The per-index state update performed by CometMarqueeInstance.pause on the
registry: index k (the receiver) gets its paused flag set; with syncPause
every other registered instance also gets only its paused flag set. -/
def pauseUpdate (sync : Bool) (k j : ℕ) (inst : Inst) : Inst :=
  if j = k then { inst with isPaused := true }
  else if sync then { inst with isPaused := true } else inst

/-- CometMarqueeInstance.pause invoked on the instance at index k of the
registry.  Dispatches animation-paused only when the receiver was not already
paused; the syncPause broadcast sets the peers' paused flags directly and
dispatches nothing for them. -/
def pause (reg : List Inst) (k : ℕ) : List Inst × List CtrlEvent :=
  match reg[k]? with
  | none => (reg, [])
  | some self =>
    (mapIdxFrom (pauseUpdate self.syncPause k) 0 reg,
     if self.isPaused then [] else [CtrlEvent.animationPaused k])

/-- The update CometMarqueeInstance.resume applies to one peer instance in
its syncPause loop: peers that are paused are re-measured, and un-paused
(with lastTime reset and, if needed, startAnimation's flag effects and its
animation-started event) only when their own fresh measurement says they
should animate. -/
def resumePeer (now : ℚ) (j : ℕ) (inst : Inst) : Inst × List CtrlEvent :=
  if inst.isPaused then
    let m := measureInst inst
    if m.shouldAnimate then
      let m2 := { m with isPaused := false, lastTime := now }
      if m2.isAnimating then (m2, [])
      else ({ m2 with isAnimating := true }, [CtrlEvent.animationStarted j])
    else (m, [])
  else (inst, [])

/-- CometMarqueeInstance.resume invoked on the instance at index k of the
registry at time now.  The receiver first re-measures itself; a missing
content setup is repaired when it should animate; if it should not animate it
stops outright and returns early (the syncPause loop is not reached).
Otherwise a paused receiver is un-paused, restarting the loop when it was not
animating.  With syncPause every other paused instance is then handled by
resumePeer. -/
def resume (reg : List Inst) (k : ℕ) (now : ℚ) : List Inst × List CtrlEvent :=
  match reg[k]? with
  | none => (reg, [])
  | some self0 =>
    let m := measureInst self0
    let self1 := if m.shouldAnimate && !m.contentSetup then { m with contentSetup := true } else m
    if self1.shouldAnimate = false then
      let evs := if self1.isAnimating then [CtrlEvent.animationStopped k] else []
      (mapIdxFrom (fun j x => if j = k then { self1 with isAnimating := false } else x) 0 reg, evs)
    else
      let selfEvs : Inst × List CtrlEvent :=
        if self1.isPaused then
          let s2 := { self1 with isPaused := false, lastTime := now }
          if s2.isAnimating = false then
            ({ s2 with isAnimating := true }, [CtrlEvent.animationStarted k])
          else
            (s2, [CtrlEvent.animationResumed k])
        else (self1, [])
      if self1.syncPause then
        let pairs := mapIdxFrom
          (fun j x => if j = k then (selfEvs.1, ([] : List CtrlEvent)) else resumePeer now j x) 0 reg
        (pairs.map Prod.fst, selfEvs.2 ++ (pairs.map Prod.snd).flatten)
      else
        (mapIdxFrom (fun j x => if j = k then selfEvs.1 else x) 0 reg, selfEvs.2)

/-- State of the multi-layer ResizeObserver guard of
CometMarqueeInstance.bindEvents.  pendingRefreshAt is the single debounce
timer slot (_refreshTimeout), holding the time the coalesced refresh would
fire; roDisconnected records that layer 3 disconnected the observer, after
which the callback no longer runs. -/
structure GuardState where
  isRefreshing : Bool
  isInitializing : Bool
  resizeObserverCallCount : ℕ
  lastResizeTimestamp : ℚ
  lastContainerRectWidth : ℚ
  lastWindowWidth : ℚ
  roDisconnected : Bool
  pendingRefreshAt : Option ℚ
deriving DecidableEq

/-- One synthetic size-change notification: its arrival time, the window's
extent along the configured axis, and the rounded-before-use contentRect
extents of the observed entries. -/
structure Notif where
  now : ℚ
  windowSize : ℚ
  entrySizes : List ℚ
deriving DecidableEq

/-- Result of walking the entries of one ResizeObserver callback (layers 5 to
7): either an early return out of the whole callback, or completion with the
updated lastContainerRectWidth and whether a real container change was seen. -/
inductive EntryScan
  | aborted (lastWidth : ℚ)
  | done (lastWidth : ℚ) (changed : Bool)
deriving DecidableEq

/-- The per-entry loop of the ResizeObserver callback.  A zero stored width
records the first observation and returns; a size delta under 5 units is
noise and returns; a delta under 10 units without a genuine window resize is
an internal change and returns; otherwise the stored width is updated and the
change is marked real. -/
def scanEntries (windowSizeChanged : Bool) : ℚ → Bool → List ℚ → EntryScan
  | lw, changed, [] => .done lw changed
  | lw, _, e :: es =>
    let currentSize := jsRound e
    if lw = 0 then .aborted currentSize
    else
      let sizeDiff := |currentSize - lw|
      if sizeDiff < 5 then .aborted lw
      else if !windowSizeChanged ∧ sizeDiff < 10 then .aborted lw
      else scanEntries windowSizeChanged currentSize true es

/-- Verdict of one guard invocation. -/
inductive RoOutcome
  | rejected
  | disconnected
  | accepted
deriving DecidableEq

/-- Tail of the ResizeObserver callback after the rate-limit and hard-stop
layers: the entry walk, the no-real-change early return, and the debounced
refresh scheduling, which replaces any pending timer with one firing 300ms
from now.  windowSizeChanged records whether the window extent along the
configured axis differs from the tracked one. -/
def guardAccept (s1 : GuardState) (n : Notif) (windowSizeChanged : Bool) :
    GuardState × RoOutcome :=
  match scanEntries windowSizeChanged s1.lastContainerRectWidth false n.entrySizes with
  | .aborted lw => ({ s1 with lastContainerRectWidth := lw }, .rejected)
  | .done lw changed =>
    if changed = false ∧ windowSizeChanged = false then
      ({ s1 with lastContainerRectWidth := lw }, .rejected)
    else
      ({ s1 with
          lastContainerRectWidth := lw
          lastWindowWidth := n.windowSize
          pendingRefreshAt := some (n.now + 300) }, .accepted)

/-- One invocation of the ResizeObserver callback (the Resize-Loop Guard) for
a notification.  Layer order follows the source: call counting, the
refresh/init block, the 50ms rate limit (which stamps lastResizeTimestamp
when passed), the 100-call hard stop, then guardAccept for the window-size
comparison, the entry walk and the debounce. -/
def roCallback (s : GuardState) (n : Notif) : GuardState × RoOutcome :=
  if s.roDisconnected then (s, .rejected)
  else
    let s0 := { s with resizeObserverCallCount := s.resizeObserverCallCount + 1 }
    if s0.isRefreshing ∨ s0.isInitializing then (s0, .rejected)
    else if n.now - s0.lastResizeTimestamp < 50 then (s0, .rejected)
    else
      let s1 := { s0 with lastResizeTimestamp := n.now }
      if 100 < s1.resizeObserverCallCount then ({ s1 with roDisconnected := true }, .disconnected)
      else
        guardAccept s1 n (decide (n.windowSize ≠ s1.lastWindowWidth))

/-- Feeding a sequence of notifications to the guard, counting how many are
accepted (that is, reach the debounced refresh scheduling). -/
def runGuard (s : GuardState) : List Notif → GuardState × ℕ
  | [] => (s, 0)
  | n :: ns =>
    let step := roCallback s n
    let rest := runGuard step.1 ns
    (rest.1, (if step.2 = .accepted then 1 else 0) + rest.2)

/-- A marquee container as the constructor sees it: the inner content surface
with its item extents when present, and whether the container was already
initialized. -/
structure Container where
  content : Option (List ℚ)
  alreadyInit : Bool
deriving DecidableEq

/-- The selector argument of the CometMarquee constructor. -/
inductive Selector
  | str (s : String)
  | element (c : Container)
  | nodeList (cs : List Container)
  | invalid
deriving DecidableEq

/-- Errors thrown during construction: the explicit invalid-selector Error,
and the TypeError raised when a container has no inner
.comet-marquee-content surface (reading children of null). -/
inductive ConstructError
  | invalidSelector
  | missingContent
deriving DecidableEq

/-- Sequential construction of CometMarqueeInstance objects for a container
list, threading the page-wide registry.  A container without the inner
content surface throws before the instance registers itself, so the registry
keeps only the previously constructed instances; an already-initialized
container returns early without registering. -/
def constructInstances (reg : List Container) : List Container → List Container × Option ConstructError
  | [] => (reg, none)
  | c :: cs =>
    match c.content with
    | none => (reg, some .missingContent)
    | some _ =>
      let reg1 := if c.alreadyInit then reg else reg ++ [c]
      constructInstances reg1 cs

/-- The CometMarquee constructor: resolves the selector to a container list
(resolve stands for document.querySelectorAll) and constructs an instance per
container.  A value that is neither a string, an element, a NodeList nor an
array throws the invalid-selector Error before any instance is built. -/
def constructCometMarquee (resolve : String → List Container) (reg : List Container) :
    Selector → List Container × Option ConstructError
  | .str s => constructInstances reg (resolve s)
  | .element c => constructInstances reg [c]
  | .nodeList cs => constructInstances reg cs
  | .invalid => (reg, some .invalidSelector)

/-- Fixture: a registered instance whose fresh measurement says it should not
animate (content 100 in a 300 container), with syncPause enabled. -/
def instNoAnim : Inst :=
  { rectWidth := 300, rectHeight := 0, itemSizes := [100], gap := 0, isVertical := false,
    forceAnimation := false, syncPause := true, containerWidth := 300, containerHeight := 0,
    containerSize := 300, contentWidth := 100, contentSize := 100, shouldAnimate := true,
    forceAnimationEnabled := false, isPaused := true, isAnimating := true, contentSetup := true,
    lastTime := 0 }

/-- Fixture: a registered instance whose fresh measurement says it should
animate (content 600 in a 300 container), with syncPause enabled. -/
def instAnim : Inst :=
  { rectWidth := 300, rectHeight := 0, itemSizes := [600], gap := 0, isVertical := false,
    forceAnimation := false, syncPause := true, containerWidth := 300, containerHeight := 0,
    containerSize := 300, contentWidth := 600, contentSize := 600, shouldAnimate := true,
    forceAnimationEnabled := false, isPaused := false, isAnimating := true, contentSetup := true,
    lastTime := 0 }

/-- Fixture: a paused registered instance with stale measurements (stored
shouldAnimate false) whose fresh measurement would say it should animate. -/
def instStale : Inst :=
  { rectWidth := 300, rectHeight := 0, itemSizes := [600], gap := 0, isVertical := false,
    forceAnimation := false, syncPause := true, containerWidth := 0, containerHeight := 0,
    containerSize := 0, contentWidth := 0, contentSize := 0, shouldAnimate := false,
    forceAnimationEnabled := false, isPaused := true, isAnimating := false, contentSetup := false,
    lastTime := 0 }

/-- Reference size as the specification words it: the larger of the measured
viewport size along the configured scroll axis and the host's full visible
extent along that same axis.  Stated from the spec for comparison with the
referenceWidth the source computes, which always uses the horizontal extents
(containerWidth and window.innerWidth) even in vertical mode. -/
def specReferenceSize (isVertical : Bool) (containerW containerH innerW innerH : ℚ) : ℚ :=
  if isVertical then max containerH innerH else max containerW innerW


/-! Theorems.  Each claim of the specification is settled by one theorem
below; helper lemmas shared between them come first. -/

/-- Claim C1, counterexample: with the forceAnimation option enabled, a
measurement with positive content size reports shouldAnimate = true although
contentSize is not greater than containerSize + 1 (here content 100 in a 300
container), so the claimed biconditional does not hold for every measurement. -/
theorem claim_C1_counterexample :
    0 < (calculateDimensions 300 0 [100] 0 false true).contentSize ∧
    (calculateDimensions 300 0 [100] 0 false true).shouldAnimate = true ∧
    ¬ ((calculateDimensions 300 0 [100] 0 false true).containerSize + 1 <
        (calculateDimensions 300 0 [100] 0 false true).contentSize) := by
  refine ⟨?_, ?_, ?_⟩ <;> norm_num [calculateDimensions, getTotalSize]

/-- Claim C1 (amended): for measurements without the forceAnimation override,
a positive contentSize yields shouldAnimate exactly when contentSize >
containerSize + 1; a non-positive contentSize yields shouldAnimate = false
for any forceAnimation setting (the recoverable degraded state, no error is
raised); and the concrete scenario of a 300 viewport with three 100-unit
items at gap 0 measures contentSize = 300 and shouldAnimate = false. -/
theorem claim_C1 (w h g : ℚ) (sizes : List ℚ) (v : Bool) :
    (0 < (calculateDimensions w h sizes g v false).contentSize →
      ((calculateDimensions w h sizes g v false).shouldAnimate = true ↔
        (calculateDimensions w h sizes g v false).containerSize + 1 <
          (calculateDimensions w h sizes g v false).contentSize)) ∧
    (∀ force : Bool, (calculateDimensions w h sizes g v force).contentSize ≤ 0 →
      (calculateDimensions w h sizes g v force).shouldAnimate = false) ∧
    (calculateDimensions 300 300 [100, 100, 100] 0 false false).contentSize = 300 ∧
    (calculateDimensions 300 300 [100, 100, 100] 0 false false).shouldAnimate = false := by
  refine ⟨?_, ?_, ?_, ?_⟩
  · intro h0
    simp only [calculateDimensions] at h0 ⊢
    rw [if_neg (not_le.mpr h0)]
    split_ifs <;> simp_all [not_lt]
  · intro force hle
    simp only [calculateDimensions] at hle ⊢
    rw [if_pos hle]
    simp [not_lt.mpr hle]
  · norm_num [calculateDimensions, getTotalSize]
  · norm_num [calculateDimensions, getTotalSize]

/-- Concrete application of claim C1: a 400-unit item in a 300 container
animates exactly because 400 exceeds 301. -/
theorem claim_C1_witness :
    (calculateDimensions 300 0 [400] 0 false false).shouldAnimate = true ↔
      (calculateDimensions 300 0 [400] 0 false false).containerSize + 1 <
        (calculateDimensions 300 0 [400] 0 false false).contentSize :=
  (claim_C1 300 0 0 [400] false).1 (by norm_num [calculateDimensions, getTotalSize])

/-- One animate invocation never changes the control flags, the configuration
or the stored loop geometry; it only rewrites lastTime, currentTranslate and
appliedTransform.  While animating, lastTime always becomes the frame time. -/
theorem animate_fields (s : AnimState) (t : ℚ) :
    (animate s t).1.isAnimating = s.isAnimating ∧
    (animate s t).1.isPaused = s.isPaused ∧
    (animate s t).1.reverse = s.reverse ∧
    (animate s t).1.speed = s.speed ∧
    (animate s t).1.loopWidth = s.loopWidth ∧
    (animate s t).1.contentWidth = s.contentWidth ∧
    (animate s t).1.gap = s.gap ∧
    (animate s t).1.prependWidth = s.prependWidth ∧
    (s.isAnimating = true → (animate s t).1.lastTime = t) := by
  simp only [animate]
  split_ifs <;> simp_all

/-- The effective loop period is invariant under animate. -/
theorem effLoop_animate (s : AnimState) (t : ℚ) : effLoop (animate s t).1 = effLoop s := by
  obtain ⟨-, -, -, -, h5, h6, h7, -, -⟩ := animate_fields s t
  simp [effLoop, h5, h6, h7]

/-- Single-frame wrap invariant, forward mode: if the pre-frame translation
is above -loopPeriod and the frame's advance is at most loopPeriod, the
post-frame translation is still above -loopPeriod. -/
theorem animate_forward_step (s : AnimState) (t : ℚ)
    (hA : s.isAnimating = true) (hrev : s.reverse = false)
    (hinv : -effLoop s < s.currentTranslate)
    (hadv : s.speed * ((t - s.lastTime) / 1000) ≤ effLoop s) :
    -effLoop s < (animate s t).1.currentTranslate := by
  simp only [animate]
  rw [if_neg (by simp [hA])]
  by_cases hp : s.isPaused = true
  · simp [hp, hinv]
  · simp only [Bool.not_eq_true] at hp
    simp only [hp, hrev, Bool.false_eq_true, if_false]
    by_cases hw : s.currentTranslate - s.speed * ((t - s.lastTime) / 1000) ≤ -effLoop s
    · rw [if_pos hw]
      simp only
      linarith
    · rw [if_neg hw]
      simp only
      linarith [not_le.mp hw]

/-- Multi-frame wrap invariant, forward mode: over any frame sequence obeying
stepsBounded, the translation stays above -loopPeriod. -/
theorem runFrames_forward_inv (ts : List ℚ) (s : AnimState)
    (hA : s.isAnimating = true) (hrev : s.reverse = false)
    (hinv : -effLoop s < s.currentTranslate)
    (hb : stepsBounded s.speed (effLoop s) s.lastTime ts) :
    -effLoop s < (runFrames s ts).currentTranslate := by
  induction ts generalizing s with
  | nil => simpa [runFrames] using hinv
  | cons t ts ih =>
    obtain ⟨hdt, hadv, hrest⟩ := hb
    obtain ⟨f1, -, f3, f4, f5, f6, f7, -, f9⟩ := animate_fields s t
    have hstep := animate_forward_step s t hA hrev hinv hadv
    have hrun : runFrames s (t :: ts) = runFrames (animate s t).1 ts := by
      simp [runFrames]
    have hel := effLoop_animate s t
    rw [hrun]
    have := ih (animate s t).1 (by rw [f1, hA]) (by rw [f3, hrev])
      (by rw [hel]; exact hstep)
      (by rw [hel, f4, f9 hA]; exact hrest)
    rwa [hel] at this

/-- Claim C2: in a running (animating, un-paused) frame with elapsed time dt,
forward mode decreases the translation by speed * dt and adds the loop period
back when the result is at or below -loopPeriod; reverse mode increases it by
speed * dt and subtracts the loop period when the result is at or above
-prependWidth; each wrap dispatches exactly one animation-cycle event with
the direction, and a frame without a wrap dispatches none. -/
theorem claim_C2 (s : AnimState) (ct : ℚ)
    (hA : s.isAnimating = true) (hP : s.isPaused = false) :
    (s.reverse = false →
      ((s.currentTranslate - s.speed * ((ct - s.lastTime) / 1000) ≤ -effLoop s →
         ((animate s ct).1.currentTranslate =
            s.currentTranslate - s.speed * ((ct - s.lastTime) / 1000) + effLoop s ∧
          (animate s ct).2 = [AnimEvent.cycle Direction.forward])) ∧
       (¬ (s.currentTranslate - s.speed * ((ct - s.lastTime) / 1000) ≤ -effLoop s) →
         ((animate s ct).1.currentTranslate =
            s.currentTranslate - s.speed * ((ct - s.lastTime) / 1000) ∧
          (animate s ct).2 = [])))) ∧
    (s.reverse = true →
      ((-s.prependWidth ≤ s.currentTranslate + s.speed * ((ct - s.lastTime) / 1000) →
         ((animate s ct).1.currentTranslate =
            s.currentTranslate + s.speed * ((ct - s.lastTime) / 1000) - effLoop s ∧
          (animate s ct).2 = [AnimEvent.cycle Direction.reverse])) ∧
       (¬ (-s.prependWidth ≤ s.currentTranslate + s.speed * ((ct - s.lastTime) / 1000)) →
         ((animate s ct).1.currentTranslate =
            s.currentTranslate + s.speed * ((ct - s.lastTime) / 1000) ∧
          (animate s ct).2 = [])))) := by
  refine ⟨fun hrev => ⟨fun hw => ?_, fun hw => ?_⟩, fun hrev => ⟨fun hw => ?_, fun hw => ?_⟩⟩ <;>
    · simp only [animate]
      rw [if_neg (by simp [hA])]
      simp only [hP, hrev, if_false, if_true, Bool.false_eq_true, Bool.true_eq_false]
      first
        | (rw [if_pos hw]; exact ⟨rfl, rfl⟩)
        | (rw [if_neg hw]; exact ⟨rfl, rfl⟩)

/-- Concrete application of claim C2: a forward frame of one second at speed
50 with loop period 500 moves the translation from 0 to -50 and dispatches no
cycle event. -/
theorem claim_C2_witness :
    (animate { isAnimating := true, isPaused := false, reverse := false, speed := 50,
               gap := 0, contentWidth := 500, loopWidth := 500, prependWidth := 0,
               currentTranslate := 0, appliedTransform := 0, lastTime := 0 } 1000).1.currentTranslate
      = 0 - 50 * ((1000 - 0) / 1000) ∧
    (animate { isAnimating := true, isPaused := false, reverse := false, speed := 50,
               gap := 0, contentWidth := 500, loopWidth := 500, prependWidth := 0,
               currentTranslate := 0, appliedTransform := 0, lastTime := 0 } 1000).2 = [] :=
  ((claim_C2 _ 1000 rfl rfl).1 rfl).2 (by norm_num [effLoop])

/-- Claim C3, counterexample: the wrap adds the loop period back only once
per frame, so a single frame whose advance spans several loop periods leaves
the translation at or below -2 * loopPeriod.  Here loopPeriod = 100, speed =
50 and one frame of 6 seconds lands the translation at -200 exactly. -/
theorem claim_C3_counterexample :
    ¬ (-(2 * effLoop { isAnimating := true, isPaused := false, reverse := false, speed := 50,
                       gap := 0, contentWidth := 100, loopWidth := 100, prependWidth := 0,
                       currentTranslate := 0, appliedTransform := 0, lastTime := 0 }) <
       (animate { isAnimating := true, isPaused := false, reverse := false, speed := 50,
                  gap := 0, contentWidth := 100, loopWidth := 100, prependWidth := 0,
                  currentTranslate := 0, appliedTransform := 0, lastTime := 0 } 6000).1.currentTranslate) := by
  norm_num [animate, effLoop]

/-- Claim C3 (amended): for an animating forward instance whose translation
starts above -loopPeriod, any frame sequence whose per-frame elapsed times
are non-negative and whose per-frame advance speed * dt is at most
loopPeriod keeps the translation above -loopPeriod after every frame, and in
particular above -2 * loopPeriod (the wrap is exact on every such frame). -/
theorem claim_C3 (s : AnimState) (ts : List ℚ)
    (hA : s.isAnimating = true) (hrev : s.reverse = false)
    (hL : 0 < effLoop s)
    (hinv : -effLoop s < s.currentTranslate)
    (hb : stepsBounded s.speed (effLoop s) s.lastTime ts) :
    -effLoop s < (runFrames s ts).currentTranslate ∧
    -(2 * effLoop s) < (runFrames s ts).currentTranslate := by
  have h := runFrames_forward_inv ts s hA hrev hinv hb
  exact ⟨h, by linarith⟩

/-- Concrete application of claim C3: two one-second frames at speed 50 with
loop period 100 keep the translation above -100 (it wraps from -100 to 0
exactly on the second frame). -/
theorem claim_C3_witness :
    -effLoop { isAnimating := true, isPaused := false, reverse := false, speed := 50,
               gap := 0, contentWidth := 100, loopWidth := 100, prependWidth := 0,
               currentTranslate := 0, appliedTransform := 0, lastTime := 0 } <
      (runFrames { isAnimating := true, isPaused := false, reverse := false, speed := 50,
                   gap := 0, contentWidth := 100, loopWidth := 100, prependWidth := 0,
                   currentTranslate := 0, appliedTransform := 0, lastTime := 0 }
        [1000, 2000]).currentTranslate :=
  (claim_C3 _ [1000, 2000] rfl rfl (by norm_num [effLoop]) (by norm_num [effLoop])
    (by norm_num [stepsBounded, effLoop])).1

/-- Claim C4: on an instance that should animate, setupContent stores
loopWidth = contentWidth + gap, sets the initial translation to -shift in
forward mode and to -prependWidth - loopPeriod + shift in reverse mode, where
shift is given by shiftValue (0, the container size, or the configured pixel
value), and applies that translation immediately as the strip's transform. -/
theorem claim_C4 (inp : SetupInput) (h : inp.shouldAnimate = true) :
    (setupContent inp).loopWidth = inp.contentWidth + inp.gap ∧
    (inp.reverse = false → (setupContent inp).currentTranslate =
       -(shiftValue inp.initialShift inp.containerSize)) ∧
    (inp.reverse = true → (setupContent inp).currentTranslate =
       -(setupContent inp).prependWidth - (setupContent inp).loopWidth +
         shiftValue inp.initialShift inp.containerSize) ∧
    (setupContent inp).appliedTransform = (setupContent inp).currentTranslate := by
  have hng : ¬ (inp.shouldAnimate = false) := by simp [h]
  refine ⟨?_, fun hrev => ?_, fun hrev => ?_, ?_⟩
  · simp only [setupContent, if_neg hng]
  · simp only [setupContent, if_neg hng]
    simp [hrev]
  · simp only [setupContent, if_neg hng]
    simp only [hrev, if_true]
  · simp only [setupContent, if_neg hng]

/-- Concrete application of claim C4: a forward instance with one 100-unit
item and gap 5 stores loop period 105. -/
theorem claim_C4_witness :
    (setupContent { shouldAnimate := true, forceAnimationEnabled := false, itemSizes := [100],
                    gap := 5, repeatCountOpt := 3, reverse := false, initialShift := .off,
                    forceAnimationWidth := 2, isVertical := false, containerWidth := 300,
                    containerSize := 300, contentWidth := 100, innerWidth := 300,
                    innerHeight := 600, prevLoopWidth := 0, prevPrependWidth := 0 }).loopWidth
      = 100 + 5 :=
  (claim_C4 _ rfl).1

/-- Claim C5: evaluation of the non-forced build at the failing input.  A
vertical instance in a 100x300 container on a 400x800 portrait window with
contentSize 100 and minimum 3 picks repeatCount = max(3, ceil(max(100, 400) *
3 / 100)) = 12 from the horizontal extents, and 12 * 100 = 1200 falls short
of the axis-correct bound specReferenceSize * minimum = max(300, 800) * 3 =
2400, violating the claimed inequality in vertical mode. -/
theorem claim_C5 :
    (setupContent { shouldAnimate := true, forceAnimationEnabled := false, itemSizes := [100],
                    gap := 0, repeatCountOpt := 3, reverse := false, initialShift := .off,
                    forceAnimationWidth := 2, isVertical := true, containerWidth := 100,
                    containerSize := 300, contentWidth := 100, innerWidth := 400,
                    innerHeight := 800, prevLoopWidth := 0, prevPrependWidth := 0 }).repeatCount
        = 12 ∧
    ¬ (specReferenceSize true 100 300 400 800 * 3 ≤
        (setupContent { shouldAnimate := true, forceAnimationEnabled := false, itemSizes := [100],
                        gap := 0, repeatCountOpt := 3, reverse := false, initialShift := .off,
                        forceAnimationWidth := 2, isVertical := true, containerWidth := 100,
                        containerSize := 300, contentWidth := 100, innerWidth := 400,
                        innerHeight := 800, prevLoopWidth := 0, prevPrependWidth := 0 }).repeatCount
          * 100) := by
  constructor <;>
    norm_num [setupContent, specReferenceSize, jsCeil, max_def]

/-- The guardAccept tail never touches lastResizeTimestamp: only the
rate-limit layer stamps it. -/
theorem guardAccept_ts (s1 : GuardState) (n : Notif) (w : Bool) :
    (guardAccept s1 n w).1.lastResizeTimestamp = s1.lastResizeTimestamp := by
  unfold guardAccept
  cases scanEntries w s1.lastContainerRectWidth false n.entrySizes with
  | aborted lw => rfl
  | done lw changed =>
    dsimp only
    split_ifs <;> rfl

/-- A notification arriving less than 50ms after the stamped
lastResizeTimestamp is never accepted, and leaves the stamp unchanged. -/
theorem roCallback_rapid (s : GuardState) (n : Notif)
    (h : n.now - s.lastResizeTimestamp < 50) :
    (roCallback s n).2 ≠ RoOutcome.accepted ∧
    (roCallback s n).1.lastResizeTimestamp = s.lastResizeTimestamp := by
  simp only [roCallback]
  split_ifs <;> simp_all

/-- An accepted notification leaves lastResizeTimestamp stamped with its own
arrival time. -/
theorem roCallback_accepted_ts (s : GuardState) (n : Notif)
    (h : (roCallback s n).2 = RoOutcome.accepted) :
    (roCallback s n).1.lastResizeTimestamp = n.now := by
  simp only [roCallback] at h ⊢
  split_ifs at h ⊢
  all_goals simp_all [guardAccept_ts]

/-- A burst in which every notification arrives less than 50ms after the
current stamp is entirely rejected and leaves the stamp unchanged. -/
theorem runGuard_zero (ns : List Notif) :
    ∀ s : GuardState, (∀ n ∈ ns, n.now - s.lastResizeTimestamp < 50) →
      (runGuard s ns).2 = 0 ∧
      (runGuard s ns).1.lastResizeTimestamp = s.lastResizeTimestamp := by
  induction ns with
  | nil =>
    intro s _
    simp [runGuard]
  | cons n ns ih =>
    intro s h
    obtain ⟨hrej, hts⟩ := roCallback_rapid s n (h n (List.mem_cons_self _ _))
    obtain ⟨ih1, ih2⟩ := ih (roCallback s n).1
      (fun m hm => by rw [hts]; exact h m (List.mem_cons_of_mem _ hm))
    simp only [runGuard]
    refine ⟨?_, ?_⟩
    · rw [if_neg hrej, ih1]
    · rw [ih2, hts]

/-- Any burst of notifications confined to a 10ms window is accepted at most
once, from any starting guard state. -/
theorem runGuard_burst (ns : List Notif) :
    ∀ t0 : ℚ, (∀ n ∈ ns, t0 ≤ n.now ∧ n.now ≤ t0 + 10) →
      ∀ s : GuardState, (runGuard s ns).2 ≤ 1 := by
  induction ns with
  | nil =>
    intro t0 _ s
    simp [runGuard]
  | cons n ns ih =>
    intro t0 h s
    simp only [runGuard]
    by_cases hacc : (roCallback s n).2 = RoOutcome.accepted
    · have hts := roCallback_accepted_ts s n hacc
      have hlt : ∀ m ∈ ns, m.now - (roCallback s n).1.lastResizeTimestamp < 50 := by
        intro m hm
        rw [hts]
        have h1 := h m (List.mem_cons_of_mem _ hm)
        have h2 := h n (List.mem_cons_self _ _)
        linarith [h1.1, h1.2, h2.1, h2.2]
      have hzero := (runGuard_zero ns (roCallback s n).1 hlt).1
      rw [if_pos hacc, hzero]
    · rw [if_neg hacc]
      simpa using ih t0 (fun m hm => h m (List.mem_cons_of_mem _ hm)) (roCallback s n).1

/-- Claim C7: any number of size-change notifications delivered within a
10ms window (1000 of them included) yields at most one accepted refresh
scheduling, and a notification arriving less than the 50ms minimum interval
after the stamped time of the last rate-limit-passing one is rejected. -/
theorem claim_C7 :
    (∀ (ns : List Notif) (t0 : ℚ), (∀ n ∈ ns, t0 ≤ n.now ∧ n.now ≤ t0 + 10) →
       ∀ s : GuardState, (runGuard s ns).2 ≤ 1) ∧
    (∀ (s : GuardState) (n : Notif), n.now - s.lastResizeTimestamp < 50 →
       (roCallback s n).2 ≠ RoOutcome.accepted) :=
  ⟨fun ns t0 h s => runGuard_burst ns t0 h s,
   fun s n h => (roCallback_rapid s n h).1⟩

/-- Concrete application of claim C7: 1000 identical notifications at time
5ms into a 10ms window starting from a fresh guard state yield at most one
accepted refresh. -/
theorem claim_C7_witness :
    (runGuard
      { isRefreshing := false, isInitializing := false, resizeObserverCallCount := 0,
        lastResizeTimestamp := 0, lastContainerRectWidth := 0, lastWindowWidth := 800,
        roDisconnected := false, pendingRefreshAt := none }
      (List.replicate 1000 { now := 5, windowSize := 800, entrySizes := [100] })).2 ≤ 1 :=
  claim_C7.1 (List.replicate 1000 { now := 5, windowSize := 800, entrySizes := [100] }) 0
    (by
      intro n hn
      rw [List.eq_of_mem_replicate hn]
      norm_num)
    { isRefreshing := false, isInitializing := false, resizeObserverCallCount := 0,
      lastResizeTimestamp := 0, lastContainerRectWidth := 0, lastWindowWidth := 800,
      roDisconnected := false, pendingRefreshAt := none }

/-- Claim C8: a frame delivered while the instance is paused but the loop is
still scheduled (isAnimating) advances lastTime to the frame time, leaves
the translation and the applied transform untouched and dispatches nothing,
so no time-debt accumulates while paused. -/
theorem claim_C8 (s : AnimState) (ct : ℚ)
    (hA : s.isAnimating = true) (hP : s.isPaused = true) :
    (animate s ct).1.lastTime = ct ∧
    (animate s ct).1.currentTranslate = s.currentTranslate ∧
    (animate s ct).1.appliedTransform = s.appliedTransform ∧
    (animate s ct).2 = [] := by
  unfold animate
  rw [if_neg (by simp [hA])]
  simp [hP]

/-- Concrete application of claim C8: a paused frame at time 7000 stamps
lastTime = 7000 and leaves the translation -30 in place. -/
theorem claim_C8_witness :
    (animate { isAnimating := true, isPaused := true, reverse := false, speed := 50,
               gap := 0, contentWidth := 100, loopWidth := 100, prependWidth := 0,
               currentTranslate := -30, appliedTransform := -30, lastTime := 0 } 7000).1.lastTime = 7000 ∧
    (animate { isAnimating := true, isPaused := true, reverse := false, speed := 50,
               gap := 0, contentWidth := 100, loopWidth := 100, prependWidth := 0,
               currentTranslate := -30, appliedTransform := -30, lastTime := 0 } 7000).1.currentTranslate = -30 ∧
    (animate { isAnimating := true, isPaused := true, reverse := false, speed := 50,
               gap := 0, contentWidth := 100, loopWidth := 100, prependWidth := 0,
               currentTranslate := -30, appliedTransform := -30, lastTime := 0 } 7000).1.appliedTransform = -30 ∧
    (animate { isAnimating := true, isPaused := true, reverse := false, speed := 50,
               gap := 0, contentWidth := 100, loopWidth := 100, prependWidth := 0,
               currentTranslate := -30, appliedTransform := -30, lastTime := 0 } 7000).2 = [] :=
  claim_C8 _ 7000 rfl rfl

/-- Element lookup through mapIdxFrom: position j receives the function at
index i + j. -/
theorem mapIdxFrom_getElem? (f : ℕ → α → β) (i j : ℕ) (l : List α) :
    (mapIdxFrom f i l)[j]? = (l[j]?).map (f (i + j)) := by
  induction l generalizing i j with
  | nil => simp [mapIdxFrom]
  | cons a as ih =>
    cases j with
    | zero => simp [mapIdxFrom]
    | succ j =>
      have e : i + (j + 1) = (i + 1) + j := by omega
      simp only [mapIdxFrom, List.getElem?_cons_succ]
      rw [ih, e]

/-- Two indexed maps compose pointwise. -/
theorem mapIdxFrom_comp (f g : ℕ → α → α) (i : ℕ) (l : List α) :
    mapIdxFrom f i (mapIdxFrom g i l) = mapIdxFrom (fun j x => f j (g j x)) i l := by
  induction l generalizing i with
  | nil => rfl
  | cons a as ih => simp [mapIdxFrom, ih]

/-- Indexed maps of pointwise-equal functions agree. -/
theorem mapIdxFrom_congr (f g : ℕ → α → β) (h : ∀ j x, f j x = g j x) (i : ℕ) (l : List α) :
    mapIdxFrom f i l = mapIdxFrom g i l := by
  induction l generalizing i with
  | nil => rfl
  | cons a as ih => simp [mapIdxFrom, ih, h]

/-- Unfolding of pause at a valid registry index. -/
theorem pause_some (reg : List Inst) (k : ℕ) (self : Inst) (h : reg[k]? = some self) :
    pause reg k = (mapIdxFrom (pauseUpdate self.syncPause k) 0 reg,
      if self.isPaused = true then [] else [CtrlEvent.animationPaused k]) := by
  unfold pause
  rw [h]

/-- The pause broadcast update is idempotent on each instance. -/
theorem pauseUpdate_idem (sync : Bool) (k j : ℕ) (x : Inst) :
    pauseUpdate sync k j (pauseUpdate sync k j x) = pauseUpdate sync k j x := by
  unfold pauseUpdate
  split_ifs <;> rfl

/-- What the syncPause resume loop guarantees for one paused peer: its stored
measurements are refreshed from its own environment, and it ends un-paused
exactly when that fresh measurement says it should animate. -/
theorem resumePeer_spec (now : ℚ) (j : ℕ) (x : Inst) (hp : x.isPaused = true) :
    (resumePeer now j x).1.shouldAnimate = (measureInst x).shouldAnimate ∧
    (resumePeer now j x).1.contentSize = (measureInst x).contentSize ∧
    ((resumePeer now j x).1.isPaused = false ↔ (measureInst x).shouldAnimate = true) := by
  by_cases hm : (measureInst x).shouldAnimate = true
  · simp only [resumePeer, hp, hm, eq_self_iff_true, if_true]
    split_ifs <;> simp_all
  · have hxp : (measureInst x).isPaused = x.isPaused := rfl
    simp [resumePeer, hp, hm, hxp]

/-- Claim C6 (amended): with syncPause enabled, pause() on the instance at
index k marks every other registered instance paused by setting only its
paused flag (its other fields are untouched and no event is dispatched for
it), and dispatches animation-paused only on the receiver's unpaused-to-
paused transition.  resume() on k, provided k's own fresh measurement says it
should animate (otherwise it stops early and never reaches its peers),
replaces every other paused registered instance by its resumePeer image:
re-measured from its own environment, and un-paused exactly when its own
fresh measurement says it should animate. -/
theorem claim_C6 (reg : List Inst) (k : ℕ) (now : ℚ) (self : Inst)
    (hk : reg[k]? = some self)
    (hsync : self.syncPause = true)
    (hres : (measureInst self).shouldAnimate = true) :
    (∀ j, j ≠ k → (pause reg k).1[j]? =
        (reg[j]?).map (fun x => { x with isPaused := true })) ∧
    ((pause reg k).2 = if self.isPaused = true then [] else [CtrlEvent.animationPaused k]) ∧
    (∀ j x, j ≠ k → reg[j]? = some x → x.isPaused = true →
      (resume reg k now).1[j]? = some (resumePeer now j x).1 ∧
      (resumePeer now j x).1.shouldAnimate = (measureInst x).shouldAnimate ∧
      (resumePeer now j x).1.contentSize = (measureInst x).contentSize ∧
      ((resumePeer now j x).1.isPaused = false ↔ (measureInst x).shouldAnimate = true)) := by
  refine ⟨?_, ?_, ?_⟩
  · intro j hj
    simp only [pause, hk]
    rw [mapIdxFrom_getElem?]
    cases reg[j]? with
    | none => rfl
    | some x => simp [pauseUpdate, hj, hsync, Nat.zero_add]
  · simp [pause, hk]
  · intro j x hj hx hp
    have hpeer := resumePeer_spec now j x hp
    refine ⟨?_, hpeer.1, hpeer.2.1, hpeer.2.2⟩
    simp only [resume, hk]
    set m := measureInst self with hm
    have e1 : (if m.shouldAnimate && !m.contentSetup
        then { m with contentSetup := true } else m).shouldAnimate = m.shouldAnimate := by
      split_ifs <;> rfl
    have e2 : (if m.shouldAnimate && !m.contentSetup
        then { m with contentSetup := true } else m).syncPause = m.syncPause := by
      split_ifs <;> rfl
    have e3 : m.syncPause = self.syncPause := rfl
    rw [if_neg (by rw [e1, hres]; simp)]
    rw [if_pos (by rw [e2, e3, hsync])]
    rw [List.getElem?_map, mapIdxFrom_getElem?, hx]
    simp [hj]

/-- Claim C6, counterexample to the claim as stated: resume() on an instance
whose own fresh measurement says it should not animate returns after
stopping itself and never reaches its peers, so the paused peer at index 1,
whose own fresh measurement says it should animate, is neither re-measured
nor un-paused. -/
theorem claim_C6_counterexample :
    instNoAnim.syncPause = true ∧
    instStale.isPaused = true ∧
    (measureInst instStale).shouldAnimate = true ∧
    (measureInst instNoAnim).shouldAnimate = false ∧
    (resume [instNoAnim, instStale] 0 5).1[1]? = some instStale := by
  refine ⟨rfl, rfl, ?_, ?_, ?_⟩
  · norm_num [measureInst, calculateDimensions, getTotalSize, instStale]
  · norm_num [measureInst, calculateDimensions, getTotalSize, instNoAnim]
  · norm_num [resume, measureInst, calculateDimensions, getTotalSize, instNoAnim, instStale,
      mapIdxFrom]

/-- Concrete application of claim C6: pausing the animating instance at index
0 of a two-instance registry sets only the paused flag of the stale peer at
index 1. -/
theorem claim_C6_witness :
    (pause [instAnim, instStale] 0).1[1]? =
      ([instAnim, instStale][1]?).map (fun x => { x with isPaused := true }) :=
  (claim_C6 [instAnim, instStale] 0 5 instAnim rfl rfl
      (by norm_num [measureInst, calculateDimensions, getTotalSize, instAnim])).1 1
    (by decide)

/-- Claim C10: pause is idempotent at the notification level: a second pause
on the same instance leaves the whole registry unchanged and dispatches no
event, and in general the animation-paused notification is dispatched only
when the receiver was not already paused. -/
theorem claim_C10 (reg : List Inst) (k : ℕ) :
    pause (pause reg k).1 k = ((pause reg k).1, ([] : List CtrlEvent)) ∧
    (∀ self, reg[k]? = some self →
      (pause reg k).2 = if self.isPaused = true then [] else [CtrlEvent.animationPaused k]) := by
  constructor
  · match hk : reg[k]? with
    | none =>
      have h0 : pause reg k = (reg, []) := by
        unfold pause
        rw [hk]
      rw [h0]
      exact h0
    | some self =>
      have h1 := pause_some reg k self hk
      have h2 : (pause reg k).1[k]? = some { self with isPaused := true } := by
        rw [h1]
        dsimp only
        rw [mapIdxFrom_getElem?, hk]
        simp [pauseUpdate]
      have h3 : mapIdxFrom (pauseUpdate self.syncPause k) 0
          (mapIdxFrom (pauseUpdate self.syncPause k) 0 reg)
          = mapIdxFrom (pauseUpdate self.syncPause k) 0 reg := by
        rw [mapIdxFrom_comp]
        exact mapIdxFrom_congr _ _ (fun j x => pauseUpdate_idem _ _ _ _) 0 reg
      have h4 := pause_some (pause reg k).1 k { self with isPaused := true } h2
      rw [h4]
      have hsy : ({ self with isPaused := true } : Inst).syncPause = self.syncPause := rfl
      have hip : ({ self with isPaused := true } : Inst).isPaused = true := rfl
      rw [hsy, hip, if_pos rfl, h1]
      dsimp only
      rw [h3]
  · intro self hk
    rw [pause_some reg k self hk]

/-- Concrete application of claim C10: a second pause on a registry holding
one already-paused instance changes nothing and dispatches nothing. -/
theorem claim_C10_witness :
    pause (pause [instStale] 0).1 0 = ((pause [instStale] 0).1, ([] : List CtrlEvent)) :=
  (claim_C10 [instStale] 0).1

/-- Claim C9, counterexample: constructing from a selector string that
matches zero elements is not an error — the constructor returns normally
with an empty instance set and the page-wide registry unchanged, instead of
throwing as the claim states. -/
theorem claim_C9_counterexample :
    constructCometMarquee (fun _ => []) [] (Selector.str "missing") = ([], none) := rfl

/-- Claim C9 (amended): an invalid selector value throws the invalid-selector
Error synchronously with nothing registered; a container missing the inner
content surface throws synchronously before the failing instance registers
itself, leaving the registry exactly as it was when that container was
reached; but a selector string matching zero elements is not an error: it
constructs zero instances and leaves the registry unchanged. -/
theorem claim_C9 (resolve : String → List Container) (reg : List Container) :
    constructCometMarquee resolve reg Selector.invalid =
      (reg, some ConstructError.invalidSelector) ∧
    (∀ c cs, c.content = none →
      constructInstances reg (c :: cs) = (reg, some ConstructError.missingContent)) ∧
    (∀ s, resolve s = [] → constructCometMarquee resolve reg (.str s) = (reg, none)) := by
  refine ⟨rfl, ?_, ?_⟩
  · intro c cs hc
    simp [constructInstances, hc]
  · intro s hs
    simp [constructCometMarquee, hs, constructInstances]

/-- Concrete application of claim C9: one container without the inner content
surface throws the missing-content TypeError and registers nothing. -/
theorem claim_C9_witness :
    constructInstances [] [{ content := none, alreadyInit := false }] =
      ([], some ConstructError.missingContent) :=
  (claim_C9 (fun _ => []) []).2.1 { content := none, alreadyInit := false } [] rfl

end CometMarquee
